import Mathlib

/-! Shallow embedding of the TCL AC cloud client (`custom_components/tcl_ac_hacs`):
the credential-chain state machine of `api.py` (`TclAcApi`), its transport error
classification (`_request`), the device operations (`get_devices`,
`get_device_shadow`, `set_power`, `control_device`) and the climate entity
temperature command (`climate.py`, `TclClimateEntity.async_set_temperature`).

JSON values are an inductive `Json`; Python truthiness is `pyTruthy`; key
membership and indexing are modelled for JSON objects (every response this
development exercises is an object, so non-objects are modelled as having no
keys).  Times are absolute UTC instants measured in seconds since the epoch,
represented as rationals (exactly the values `datetime` instants compare by).
Network responses are supplied as parameters (`AuthEnv`, `TransportResult`):
each stage function below is the corresponding source function's response
validation and state update logic, translated clause by clause. -/

namespace TclAc

/-- JSON values as decoded by `json.loads` in `api.py`.  Numbers are modelled
as rationals, an exact superset of the numerals the client handles. -/
inductive Json where
  | null
  | bool (b : Bool)
  | num (q : ℚ)
  | str (s : String)
  | arr (elems : List Json)
  | obj (fields : List (String × Json))

/-- Python truthiness `bool(x)` of a JSON value. -/
def pyTruthy : Json → Bool
  | .null => false
  | .bool b => b
  | .num q => !(decide (q = 0))
  | .str s => !s.isEmpty
  | .arr xs => !xs.isEmpty
  | .obj fs => !fs.isEmpty

/-- Dictionary indexing `d[k]`, modelled for JSON objects; non-objects have no
keys (see the module comment). -/
def jsonGet (j : Json) (k : String) : Option Json :=
  match j with
  | .obj fs => fs.lookup k
  | _ => none

/-- Python membership test `k in d` for a JSON object. -/
def hasKey (j : Json) (k : String) : Bool := (jsonGet j k).isSome

/-- Python `d.get(k, default)`. -/
def jsonGetD (j : Json) (k : String) (d : Json) : Json := (jsonGet j k).getD d

/-- Truthiness of an optional attribute (`None` is falsy). -/
def optTruthy : Option Json → Bool
  | none => false
  | some j => pyTruthy j

/-- Python comparison `x == 0` on the result of a `.get` (`None == 0` is
false; a JSON number or boolean compares numerically). -/
def pyEqZero : Option Json → Bool
  | some (.num q) => decide (q = 0)
  | some (.bool b) => !b
  | _ => false

/-- Exceptions that escape the api layer: `TclAuthError` and `TclApiError`
(api.py lines 27-33), the `UnboundLocalError` produced when an `except` clause
of `_request` evaluates the function-local name `requests` on the aiohttp path
(the `import requests` at api.py line 75 executes only on the `is_aws_iot`
branch, yet it makes `requests` a local name of the whole function), and the
`TypeError` a division of a non-number would raise. -/
inductive PyError where
  | tclAuthError (msg : String)
  | tclApiError (msg : String)
  | unboundLocalError (name : String)
  | typeError (msg : String)
deriving DecidableEq

/-- Body of an HTTP response as read by `_request` (api.py lines 83, 90-106):
missing entirely, present but not decodable as JSON, or decoded JSON. -/
inductive RawBody where
  | empty
  | invalid (text : String)
  | valid (j : Json)

/-- Outcome of the underlying transport call inside `_request`: a response
whose `raise_for_status` did not fire (status below 400) carrying a body, an
HTTP error status (`raise_for_status` fired), a connection failure, or a
timeout. -/
inductive TransportResult where
  | ok (status : Nat) (body : RawBody)
  | httpError (status : Nat)
  | connectionError
  | timeout

/-- Exceptions that can propagate out of the `try` body of `_request`
(api.py lines 69-106).  `requestsHTTPError` is raised by the synchronous
`requests` transport, `clientResponseError` by aiohttp; `requestsOtherError`
stands for the synchronous transport's connection/timeout exception classes
(subclasses of neither `aiohttp.ClientConnectionError` nor
`asyncio.TimeoutError`); `tclApiRaised` is the `TclApiError` raised at lines
100 and 106; `attributeError` is raised at line 95, where `response.status`
is read although the synchronous `requests` response object only has
`status_code`. -/
inductive TryException where
  | clientResponseError (status : Nat)
  | requestsHTTPError (status : Nat)
  | clientConnectionError
  | requestsOtherError
  | asyncioTimeout
  | tclApiRaised (msg : String)
  | attributeError (name : String)

/-- The `try` body of `_request` (api.py lines 69-106).  `isAwsIot` selects the
synchronous `requests` transport used with AWS4Auth; otherwise aiohttp is
used.  An empty body with a success status returns `{}` (line 97); on the
synchronous path that branch is unreachable because line 95 reads
`response.status`, which does not exist on a `requests` response. -/
def requestTryBody (isAwsIot : Bool) : TransportResult → Except TryException Json
  | .httpError status =>
      .error (if isAwsIot then .requestsHTTPError status else .clientResponseError status)
  | .connectionError =>
      .error (if isAwsIot then .requestsOtherError else .clientConnectionError)
  | .timeout =>
      .error (if isAwsIot then .requestsOtherError else .asyncioTimeout)
  | .ok status body =>
      match body with
      | .empty =>
          if isAwsIot then .error (.attributeError "status")
          else if 200 ≤ status ∧ status < 300 then .ok (.obj [])
          else .error (.tclApiRaised "API returned empty response")
      | .invalid _ => .error (.tclApiRaised "Failed to decode JSON response")
      | .valid j => .ok j

/-- The `except` ladder of `_request` (api.py lines 108-126), with the clauses
checked in source order.  The second clause's pattern is
`requests.exceptions.HTTPError`; evaluating it on the aiohttp path raises
`UnboundLocalError` because the local name `requests` was never bound there,
so on that path every exception not already caught by the first clause
escapes as `UnboundLocalError`. -/
def dispatchExcept (isAwsIot : Bool) : TryException → PyError
  | .clientResponseError status =>
      if status = 401 ∨ status = 403 then
        .tclAuthError ("Authentication failed: " ++ toString status)
      else .tclApiError ("API request failed: " ++ toString status)
  | e =>
      if !isAwsIot then .unboundLocalError "requests"
      else
        match e with
        | .requestsHTTPError status =>
            if status = 401 ∨ status = 403 then
              .tclAuthError ("Authentication failed: " ++ toString status)
            else .tclApiError ("API request failed: " ++ toString status)
        | .clientConnectionError => .tclApiError "API connection failed"
        | .asyncioTimeout => .tclApiError "API request timed out"
        | _ => .tclApiError "Unexpected API error"

/-- `TclAcApi._request` (api.py lines 62-126): run the `try` body, classify any
escaping exception through the `except` ladder. -/
def request (isAwsIot : Bool) (t : TransportResult) : Except PyError Json :=
  match requestTryBody isAwsIot t with
  | .ok j => .ok j
  | .error e => .error (dispatchExcept isAwsIot e)

/-- State of `TclAcApi` — the credential chain (api.py lines 47-56; every
attribute is initialised to `None`).  Token-valued attributes hold the JSON
value stored from the corresponding response; expiries are UTC instants in
seconds. -/
structure ChainState where
  access_token : Option Json
  country : Option Json
  api_username : Option Json
  cognito_token : Option Json
  saas_token : Option Json
  cognito_token_expiry : Option ℚ
  aws_access_key_id : Option Json
  aws_secret_key : Option Json
  aws_session_token : Option Json
  aws_credentials_expiry : Option ℚ

/-- The recurring Python test `self._x_expiry and now >= self._x_expiry` on an
optional expiry: a `datetime` is always truthy and `None` is falsy. -/
def expiryPassed (now : ℚ) : Option ℚ → Bool
  | none => false
  | some t => decide (t ≤ now)

/-- Environment of one `ensure_authenticated` call: the current time and, for
each stage's endpoint, the value or exception `_request` produces for it.
`decodeExp` models `jwt.decode(token, verify_signature=False)` followed by
reading the `exp` claim in seconds; `none` models `PyJWTError` being raised
(api.py lines 195-201). -/
structure AuthEnv where
  now : ℚ
  accountResp : Except PyError Json
  refreshResp : Except PyError Json
  awsResp : Except PyError Json
  decodeExp : Json → Option ℚ

/-- The assignments of `_do_account_auth` (api.py lines 157-159). -/
def accountApply (j : Json) (s : ChainState) : ChainState :=
  { s with
      access_token := jsonGet j "token",
      country := jsonGet (jsonGetD j "user" (.obj [])) "countryAbbr",
      api_username := jsonGet (jsonGetD j "user" (.obj [])) "username" }

/-- `TclAcApi._do_account_auth` (api.py lines 129-164): validation and state
update of the stage-1 response.  Returns the state as it stands when the
function returns or raises, plus the raised exception if any — Python leaves
assignments already executed in place when a later line raises. -/
def do_account_auth (resp : Except PyError Json) (s : ChainState) :
    ChainState × Option PyError :=
  match resp with
  | .error e => (s, some e)
  | .ok response_data =>
      if !pyTruthy response_data || !hasKey response_data "token" then
        (s, some (.tclAuthError "Account authentication failed: token not in response."))
      else
        let s1 := accountApply response_data s
        if !optTruthy s1.access_token || !optTruthy s1.country
            || !optTruthy s1.api_username then
          (s1, some (.tclAuthError "Account auth failed: Missing critical user data in response."))
        else (s1, none)

/-- The assignments of `_refresh_tokens` at api.py lines 192-193, given the
`data` member of the response. -/
def refreshApply (d : Json) (s : ChainState) : ChainState :=
  { s with
      cognito_token := jsonGet d "cognitoToken",
      saas_token := jsonGet d "saasToken" }

/-- `TclAcApi._refresh_tokens` (api.py lines 167-203): prerequisite check,
stage-2 response validation, assignment of the two tokens, then the unverified
decode of the cognito token's `exp` claim.  The decode happens after the two
token assignments, so a decode failure (`TclApiError`, line 201) leaves the
freshly assigned tokens in place. -/
def refresh_tokens (env : AuthEnv) (s : ChainState) : ChainState × Option PyError :=
  if !optTruthy s.api_username || !optTruthy s.access_token then
    (s, some (.tclAuthError "Prerequisites for token refresh not met."))
  else
    match env.refreshResp with
    | .error e => (s, some e)
    | .ok response_data =>
        if !pyTruthy response_data || !hasKey response_data "data"
            || !hasKey (jsonGetD response_data "data" .null) "cognitoToken"
            || !hasKey (jsonGetD response_data "data" .null) "saasToken" then
          (s, some (.tclAuthError "Token refresh failed: cognitoToken or saasToken not in response."))
        else
          match env.decodeExp
              (jsonGetD (jsonGetD response_data "data" .null) "cognitoToken" .null) with
          | none => (refreshApply (jsonGetD response_data "data" .null) s,
                     some (.tclApiError "Could not parse Cognito token expiry."))
          | some e => ({ refreshApply (jsonGetD response_data "data" .null) s with
                         cognito_token_expiry := some e }, none)

/-- `TclAcApi._get_aws_credentials` (api.py lines 205-242): prerequisite
checks, stage-3 response validation, assignment of the three credential
fields, then the expiry — `Expiration` arrives in milliseconds and is divided
by 1000 (true division, line 241) before being stored as a seconds instant. -/
def get_aws_credentials (env : AuthEnv) (s : ChainState) : ChainState × Option PyError :=
  if !optTruthy s.cognito_token then
    (s, some (.tclAuthError "Cognito token not available for AWS credential retrieval."))
  else if expiryPassed env.now s.cognito_token_expiry then
    (s, some (.tclAuthError "Cognito token expired."))
  else
    match env.awsResp with
    | .error e => (s, some e)
    | .ok response_data =>
        let creds := jsonGetD response_data "Credentials" .null
        if !pyTruthy response_data || !hasKey response_data "Credentials"
            || !(hasKey creds "AccessKeyId" && hasKey creds "SecretKey"
                 && hasKey creds "SessionToken" && hasKey creds "Expiration") then
          (s, some (.tclAuthError "Failed to get AWS credentials: Malformed response."))
        else
          let s1 := { s with
            aws_access_key_id := jsonGet creds "AccessKeyId",
            aws_secret_key := jsonGet creds "SecretKey",
            aws_session_token := jsonGet creds "SessionToken" }
          match jsonGetD creds "Expiration" .null with
          | .num q => ({ s1 with aws_credentials_expiry := some (q / 1000) }, none)
          | _ => (s1, some (.typeError "unsupported operand types for division"))

/-- The decision at api.py lines 247-258: `full_reauth_needed` is set when the
stage-1 outputs are missing, when the stage-2 tokens are missing, or (elif)
when the cognito token expiry has passed. -/
def fullReauthNeeded (now : ℚ) (s : ChainState) : Bool :=
  let c1 := !optTruthy s.access_token || !optTruthy s.api_username || !optTruthy s.country
  let c2 := !optTruthy s.cognito_token || !optTruthy s.saas_token
  let c3 := !c2 && expiryPassed now s.cognito_token_expiry
  c1 || c2 || c3

/-- The decision at api.py lines 265-271: AWS credentials are (re)fetched when
any of the three credential fields is missing, or (elif) when their expiry has
passed. -/
def awsCredsNeeded (now : ℚ) (s : ChainState) : Bool :=
  let c1 := !optTruthy s.aws_access_key_id || !optTruthy s.aws_secret_key
            || !optTruthy s.aws_session_token
  c1 || (!c1 && expiryPassed now s.aws_credentials_expiry)

/-- Which stage executed its network call, for the execution log. -/
inductive Stage where
  | accountAuth
  | refreshTokens
  | awsCredentials
deriving DecidableEq

/-- Result of one `ensure_authenticated` call: the chain state when the call
returns or raises, the raised exception if any, and the stages whose network
calls were executed, in order. -/
structure AuthResult where
  state : ChainState
  err : Option PyError
  log : List Stage

/-- The full-reauth block of `ensure_authenticated` (api.py lines 260-262):
when `full_reauth_needed`, stage 1 runs and then stage 2; an exception
propagates immediately. -/
def stage12 (env : AuthEnv) (s : ChainState) : AuthResult :=
  if fullReauthNeeded env.now s then
    match do_account_auth env.accountResp s with
    | (s1, some e) => ⟨s1, some e, [Stage.accountAuth]⟩
    | (s1, none) =>
        match refresh_tokens env s1 with
        | (s2, e2) => ⟨s2, e2, [Stage.accountAuth, Stage.refreshTokens]⟩
  else ⟨s, none, []⟩

/-- The AWS-credentials block of `ensure_authenticated` (api.py lines
264-280), entered only when no exception has propagated: if credentials are
needed and the call did not just do a full reauth but the cognito token has
expired, stage 2 is redone first; then stage 3 runs.  `full` is the local
`full_reauth_needed` flag computed earlier in the call. -/
def stage3 (env : AuthEnv) (full : Bool) (r : AuthResult) : AuthResult :=
  match r.err with
  | some _ => r
  | none =>
      if awsCredsNeeded env.now r.state then
        if !full && expiryPassed env.now r.state.cognito_token_expiry then
          match refresh_tokens env r.state with
          | (s2, some e) => ⟨s2, some e, r.log ++ [Stage.refreshTokens]⟩
          | (s2, none) =>
              match get_aws_credentials env s2 with
              | (s3, e3) => ⟨s3, e3, r.log ++ [Stage.refreshTokens, Stage.awsCredentials]⟩
        else
          match get_aws_credentials env r.state with
          | (s3, e3) => ⟨s3, e3, r.log ++ [Stage.awsCredentials]⟩
      else r

/-- `TclAcApi.ensure_authenticated` (api.py lines 245-280). -/
def ensure_authenticated (env : AuthEnv) (s : ChainState) : AuthResult :=
  stage3 env (fullReauthNeeded env.now s) (stage12 env s)

/-- `TclAcApi.get_devices` (api.py lines 283-320): ensure authentication,
check the SaaS token and country, then validate the listing response.
`devicesResp` is what `_request` produces for the listing endpoint. -/
def get_devices (env : AuthEnv) (devicesResp : Except PyError Json)
    (s : ChainState) : Except PyError Json :=
  let r := ensure_authenticated env s
  match r.err with
  | some e => .error e
  | none =>
      if !optTruthy r.state.saas_token || !optTruthy r.state.country then
        .error (.tclAuthError "SaaS token or country missing, cannot get devices.")
      else
        match devicesResp with
        | .error e => .error e
        | .ok response_data =>
            if !pyTruthy response_data || !hasKey response_data "data" then
              if pyEqZero (jsonGet response_data "code")
                  && !hasKey response_data "data" then
                .ok (.obj [("data", .arr [])])
              else .error (.tclApiError "Failed to get devices or malformed response.")
            else .ok response_data

/-- `TclAcApi.get_device_shadow` (api.py lines 378-419): ensure
authentication, check the AWS credentials, perform the signed GET on the
synchronous (`is_aws_iot`) transport, and map a falsy decoded body to the
empty document; any exception from `_request` is logged and re-raised. -/
def get_device_shadow (env : AuthEnv) (shadowTransport : TransportResult)
    (s : ChainState) : Except PyError Json :=
  let r := ensure_authenticated env s
  match r.err with
  | some e => .error e
  | none =>
      if !optTruthy r.state.aws_access_key_id || !optTruthy r.state.aws_secret_key
          || !optTruthy r.state.aws_session_token then
        .error (.tclAuthError "AWS credentials missing for device control.")
      else
        match request true shadowTransport with
        | .error e => .error e
        | .ok response_data =>
            if !pyTruthy response_data then .ok (.obj [])
            else .ok response_data

/-- Constants from `const.py` lines 5-7. -/
def API_PARAM_POWER_SWITCH : String := "powerSwitch"

def API_PARAM_VERTICAL_DIRECTION : String := "verticalDirection"

def API_PARAM_HORIZONTAL_DIRECTION : String := "horizontalDirection"

/-- The desired-state patch built by `TclAcApi.set_power` (api.py lines
361-371). -/
def set_power_command (power_on : Bool) : List (String × Json) :=
  if power_on then [(API_PARAM_POWER_SWITCH, .num 1)]
  else
    [(API_PARAM_POWER_SWITCH, .num 0),
     (API_PARAM_VERTICAL_DIRECTION, .num 8),
     (API_PARAM_HORIZONTAL_DIRECTION, .num 8)]

/-- The body `TclAcApi.control_device` posts to the shadow-update topic
(api.py lines 352-355), for a command and the millisecond timestamp used in
the client token. -/
def control_device_body (command : List (String × Json)) (timestamp_ms : ℤ) : Json :=
  .obj [("state", .obj [("desired", .obj command)]),
        ("clientToken", .str ("mobile_" ++ toString timestamp_ms))]

/-- Temperature bounds of the climate entity (climate.py lines 161-162). -/
def attr_min_temp : ℚ := 16

/-- Upper temperature bound (climate.py line 162). -/
def attr_max_temp : ℚ := 31

/-- `TclClimateEntity.async_set_temperature` (climate.py lines 339-363):
with no temperature the call returns at once; out of range it returns without
calling the api and without touching the stored target; in range it sends the
`targetTemperature` command and, when the api call does not raise (`apiOk`),
stores the new target.  Returns the command handed to the api, if any, and
the stored target after the call. -/
def async_set_temperature (apiOk : Bool) (temperature : Option ℚ)
    (target : Option ℚ) : Option Json × Option ℚ :=
  match temperature with
  | none => (none, target)
  | some t =>
      if !(decide (attr_min_temp ≤ t) && decide (t ≤ attr_max_temp)) then (none, target)
      else
        let cmd : Json := .obj [("targetTemperature", .num t)]
        if apiOk then (some cmd, some t) else (some cmd, target)

/-! Concurrency model for `ensure_authenticated`.  The source takes no lock:
two coroutines may interleave at every `await`.  Within one call the code
runs synchronously from its entry (the `full_reauth_needed` and AWS checks)
up to the first network `await`, suspends there, and on resume runs the
response validation and state writes synchronously together with the dispatch
of the next network call.  A task is therefore a program counter over these
synchronous chunks; dispatching a stage's network call appends that stage to
the send log, and the shared `ChainState` is read at dispatch time and
written at resume time.  The prerequisite checks that a stage performs before
its own `await` are modelled at dispatch; on resume the stage function
(which re-evaluates them) is applied to the then-current shared state — in
the interleavings studied here the fields involved do not change in between.
A task whose stage raises simply stops (`done`), as the exception propagates
out of its `ensure_authenticated` call. -/

/-- Program counter of one in-flight `ensure_authenticated` call. -/
inductive TaskPC where
  | start
  | waitAccount
  | waitRefresh1
  | waitRefresh2
  | waitAws
  | done
deriving DecidableEq

/-- One in-flight call: its program counter and its local
`full_reauth_needed` flag. -/
structure AuthTask where
  pc : TaskPC
  full : Bool

/-- Shared state, the tasks, and the network calls dispatched so far. -/
structure ConcSystem where
  shared : ChainState
  tasks : List AuthTask
  sends : List Stage

/-- The synchronous AWS-check chunk (api.py lines 264-280) run with local
flag `full`: decide whether credentials are needed, dispatch the re-refresh
or the credentials call (performing the dispatched stage's own pre-`await`
checks, api.py lines 168-170 and 206-212), or finish. -/
def awsPhase (env : AuthEnv) (shared : ChainState) (full : Bool) :
    TaskPC × List Stage :=
  if awsCredsNeeded env.now shared then
    if !full && expiryPassed env.now shared.cognito_token_expiry then
      if !optTruthy shared.api_username || !optTruthy shared.access_token then
        (.done, [])
      else (.waitRefresh2, [Stage.refreshTokens])
    else
      if !optTruthy shared.cognito_token
          || expiryPassed env.now shared.cognito_token_expiry then (.done, [])
      else (.waitAws, [Stage.awsCredentials])
  else (.done, [])

/-- One atomic step of a task: the synchronous chunk at its program counter,
returning the new shared state, the task, and the stages dispatched. -/
def taskStep (env : AuthEnv) (shared : ChainState) (t : AuthTask) :
    ChainState × AuthTask × List Stage :=
  match t.pc with
  | .done => (shared, t, [])
  | .start =>
      if fullReauthNeeded env.now shared then
        (shared, ⟨.waitAccount, true⟩, [Stage.accountAuth])
      else
        let pcs := awsPhase env shared false
        (shared, ⟨pcs.1, false⟩, pcs.2)
  | .waitAccount =>
      match do_account_auth env.accountResp shared with
      | (s1, some _) => (s1, ⟨.done, t.full⟩, [])
      | (s1, none) =>
          if !optTruthy s1.api_username || !optTruthy s1.access_token then
            (s1, ⟨.done, t.full⟩, [])
          else (s1, ⟨.waitRefresh1, t.full⟩, [Stage.refreshTokens])
  | .waitRefresh1 =>
      match refresh_tokens env shared with
      | (s2, some _) => (s2, ⟨.done, t.full⟩, [])
      | (s2, none) =>
          let pcs := awsPhase env s2 t.full
          (s2, ⟨pcs.1, t.full⟩, pcs.2)
  | .waitRefresh2 =>
      match refresh_tokens env shared with
      | (s2, some _) => (s2, ⟨.done, t.full⟩, [])
      | (s2, none) =>
          if !optTruthy s2.cognito_token
              || expiryPassed env.now s2.cognito_token_expiry then
            (s2, ⟨.done, t.full⟩, [])
          else (s2, ⟨.waitAws, t.full⟩, [Stage.awsCredentials])
  | .waitAws =>
      ((get_aws_credentials env shared).1, ⟨.done, t.full⟩, [])

/-- Run the scheduled task (a no-op for an index out of range). -/
def sysStep (env : AuthEnv) (sys : ConcSystem) (i : Nat) : ConcSystem :=
  match sys.tasks.get? i with
  | none => sys
  | some t =>
      let r := taskStep env sys.shared t
      ⟨r.1, sys.tasks.set i r.2.1, sys.sends ++ r.2.2⟩

/-- Run a cooperative schedule: at each tick the named task executes its next
synchronous chunk. -/
def runSchedule (env : AuthEnv) (sys : ConcSystem) (schedule : List Nat) :
    ConcSystem :=
  schedule.foldl (sysStep env) sys

/-- A chain state on which `ensure_authenticated` at time `now` has nothing
to do: every field truthy and no expiry passed. -/
def fullyAuthenticated (now : ℚ) (s : ChainState) : Bool :=
  optTruthy s.access_token && optTruthy s.api_username && optTruthy s.country
  && optTruthy s.cognito_token && optTruthy s.saas_token
  && !expiryPassed now s.cognito_token_expiry
  && optTruthy s.aws_access_key_id && optTruthy s.aws_secret_key
  && optTruthy s.aws_session_token
  && !expiryPassed now s.aws_credentials_expiry

/-- Well-formedness of a stage-1 response: the checks of `_do_account_auth`
(api.py lines 153-163) all pass. -/
def accountRespValid (j : Json) : Bool :=
  (pyTruthy j && hasKey j "token")
  && optTruthy (jsonGet j "token")
  && optTruthy (jsonGet (jsonGetD j "user" (.obj [])) "countryAbbr")
  && optTruthy (jsonGet (jsonGetD j "user" (.obj [])) "username")

/-! Concrete inputs used by the counterexamples and witnesses below. -/

/-- A well-formed stage-1 (account login) response. -/
def okAccountResp : Json :=
  .obj [("token", .str "session-token"),
        ("user", .obj [("countryAbbr", .str "RO"), ("username", .str "user-1")])]

/-- A well-formed stage-2 (token exchange) response. -/
def okRefreshResp : Json :=
  .obj [("data", .obj [("cognitoToken", .str "cog-token"),
                       ("saasToken", .str "saas-token")])]

/-- A well-formed stage-3 (credential issuance) response, with `Expiration`
in milliseconds since the epoch. -/
def okAwsResp : Json :=
  .obj [("Credentials", .obj [("AccessKeyId", .str "AKIA"), ("SecretKey", .str "sec"),
         ("SessionToken", .str "sess"), ("Expiration", .num 1700000000000)])]

/-- An environment at time 100 in which every stage succeeds and the decoded
cognito token expires far in the future. -/
def envOk : AuthEnv :=
  { now := 100
    accountResp := .ok okAccountResp
    refreshResp := .ok okRefreshResp
    awsResp := .ok okAwsResp
    decodeExp := fun _ => some 2000000000 }

/-- A chain state in which every stage is populated and unexpired at
time 100. -/
def sAuth : ChainState :=
  ⟨some (.str "tok"), some (.str "RO"), some (.str "user"),
   some (.str "cog"), some (.str "saas"), some 2000000000,
   some (.str "AKIA"), some (.str "sec"), some (.str "sess"), some 2000000000⟩

/-- Chain state with the stage-1 outputs present and valid but the stage-2
tokens absent, stage-3 credentials present and unexpired. -/
def sC1 : ChainState :=
  ⟨some (.str "tok"), some (.str "RO"), some (.str "user"),
   none, none, none,
   some (.str "AKIA"), some (.str "sec"), some (.str "sess"), some 2000000000⟩

/-- Fully populated chain state whose cognito token expiry (50) has passed at
time 100. -/
def sC2 : ChainState := { sAuth with cognito_token_expiry := some 50 }

/-- Environment whose stage-1 response is a truthy object without a
`token` member. -/
def envC2 : AuthEnv := { envOk with accountResp := .ok (.obj [("code", .num 1)]) }

/-- Chain state holding an old cognito/saas token pair. -/
def sC3 : ChainState :=
  ⟨some (.str "tok"), some (.str "RO"), some (.str "user"),
   some (.str "oldCog"), some (.str "oldSaas"), some 50,
   none, none, none, none⟩

/-- Environment in which decoding the freshly received cognito token's
payload fails (`PyJWTError`). -/
def envC3 : AuthEnv := { envOk with decodeExp := fun _ => none }

/-- Fully populated chain state whose AWS credential expiry (50) has passed
at time 100, every upstream stage being valid. -/
def sC8 : ChainState := { sAuth with aws_credentials_expiry := some 50 }

/-- Two concurrent `ensure_authenticated` calls over the shared state
`sC8`, both at their entry point. -/
def sysC8 : ConcSystem := ⟨sC8, [⟨.start, false⟩, ⟨.start, false⟩], []⟩

/-! Helper lemmas shared by the claim theorems. -/

/-- A valid stage-1 response makes `_do_account_auth` apply its assignments
and return normally. -/
theorem do_account_auth_ok (j : Json) (s : ChainState)
    (h : accountRespValid j = true) :
    do_account_auth (.ok j) s = (accountApply j s, none) := by
  simp only [accountRespValid, Bool.and_eq_true] at h
  obtain ⟨⟨⟨⟨hp, hk⟩, ht⟩, hc⟩, hu⟩ := h
  simp [do_account_auth, accountApply, hp, hk, ht, hc, hu]

/-- The AWS-credentials block only ever appends to the execution log. -/
theorem stage3_log_prefix (env : AuthEnv) (full : Bool) (r : AuthResult) :
    ∃ t, (stage3 env full r).log = r.log ++ t := by
  unfold stage3
  rcases herr : r.err with _ | e
  · by_cases haws : awsCredsNeeded env.now r.state = true
    · by_cases hre : (!full && expiryPassed env.now r.state.cognito_token_expiry) = true
      · rcases hrt : refresh_tokens env r.state with ⟨s2, e2⟩
        rcases e2 with _ | e2'
        · rcases hga : get_aws_credentials env s2 with ⟨s3, e3⟩
          exact ⟨[Stage.refreshTokens, Stage.awsCredentials],
                 by simp [herr, haws, hre, hrt, hga]⟩
        · exact ⟨[Stage.refreshTokens], by simp [herr, haws, hre, hrt]⟩
      · rcases hga : get_aws_credentials env r.state with ⟨s3, e3⟩
        exact ⟨[Stage.awsCredentials], by simp [herr, haws, hre, hga]⟩
    · exact ⟨[], by simp [herr, haws]⟩
  · exact ⟨[], by simp [herr]⟩

/-- On a fully valid, unexpired chain, `ensure_authenticated` executes no
stage and changes nothing. -/
theorem ensure_authenticated_noop (env : AuthEnv) (s : ChainState)
    (h : fullyAuthenticated env.now s = true) :
    ensure_authenticated env s = ⟨s, none, []⟩ := by
  simp only [fullyAuthenticated, Bool.and_eq_true, Bool.not_eq_true'] at h
  obtain ⟨⟨⟨⟨⟨⟨⟨⟨⟨h1, h2⟩, h3⟩, h4⟩, h5⟩, h6⟩, h7⟩, h8⟩, h9⟩, h10⟩ := h
  have hfull : fullReauthNeeded env.now s = false := by
    simp [fullReauthNeeded, h1, h2, h3, h4, h5, h6]
  have haws : awsCredsNeeded env.now s = false := by
    simp [awsCredsNeeded, h7, h8, h9, h10]
  unfold ensure_authenticated stage12 stage3
  rw [hfull]
  simp [haws]

/-! Claim theorems. -/

/-- C1, counterexample: in the state `sC1` the session token, username and
country are present and valid, the stage-2 tokens are absent, and every
stage response succeeds — yet the call executes stage 1 (account login)
before stage 2, contradicting the claim that stage 1 is not re-executed. -/
theorem c1_counterexample :
    (ensure_authenticated envOk sC1).log = [Stage.accountAuth, Stage.refreshTokens]
    ∧ (ensure_authenticated envOk sC1).err = none :=
  ⟨rfl, rfl⟩

/-- C1, amended: whenever the stage-1 outputs are present and valid but the
stage-2 tokens are absent or the federation expiry has passed, and the
account endpoint returns a valid response, `ensure_authenticated` performs a
full reauthentication: it re-executes stage 1 and then stage 2. -/
theorem c1_amended_full_reauth (env : AuthEnv) (s : ChainState) (j : Json)
    (hresp : env.accountResp = .ok j)
    (hvalid : accountRespValid j = true)
    (h1 : optTruthy s.access_token = true)
    (h2 : optTruthy s.api_username = true)
    (h3 : optTruthy s.country = true)
    (hneed : (!(optTruthy s.cognito_token && optTruthy s.saas_token)
              || expiryPassed env.now s.cognito_token_expiry) = true) :
    ((ensure_authenticated env s).log).take 2
      = [Stage.accountAuth, Stage.refreshTokens] := by
  have hfull : fullReauthNeeded env.now s = true := by
    revert hneed
    simp only [fullReauthNeeded]
    cases optTruthy s.cognito_token <;> cases optTruthy s.saas_token <;>
      cases expiryPassed env.now s.cognito_token_expiry <;> simp
  have hacct : do_account_auth env.accountResp s = (accountApply j s, none) := by
    rw [hresp]; exact do_account_auth_ok j s hvalid
  have h12 : stage12 env s
      = ⟨(refresh_tokens env (accountApply j s)).1,
         (refresh_tokens env (accountApply j s)).2,
         [Stage.accountAuth, Stage.refreshTokens]⟩ := by
    unfold stage12
    rw [hfull, hacct]
    rcases hr : refresh_tokens env (accountApply j s) with ⟨s2, e2⟩
    simp [hr]
  obtain ⟨t, ht⟩ := stage3_log_prefix env (fullReauthNeeded env.now s) (stage12 env s)
  show (stage3 env (fullReauthNeeded env.now s) (stage12 env s)).log.take 2 = _
  rw [ht, h12]
  rfl

/-- C1, witness for the amended theorem at the concrete inputs of the
counterexample. -/
theorem c1_amended_full_reauth_witness :
    ((ensure_authenticated envOk sC1).log).take 2
      = [Stage.accountAuth, Stage.refreshTokens] :=
  c1_amended_full_reauth envOk sC1 okAccountResp rfl rfl rfl rfl rfl rfl

/-- C2, counterexample: in the fully populated state `sC2` the cognito
expiry has passed, so a full reauth runs; stage 1 raises `TclAuthError`
because its response has no token — and afterwards every field, including
the stage-1 session token and the downstream AWS session token, still holds
its old value: nothing was cleared. -/
theorem c2_counterexample :
    (ensure_authenticated envC2 sC2).err
      = some (.tclAuthError "Account authentication failed: token not in response.")
    ∧ (ensure_authenticated envC2 sC2).state = sC2
    ∧ (ensure_authenticated envC2 sC2).state.access_token = some (.str "tok")
    ∧ (ensure_authenticated envC2 sC2).state.aws_session_token = some (.str "sess") :=
  ⟨rfl, rfl, rfl, rfl⟩

/-- C2, amended: an `AuthError` raised by a chain stage while validating its
response before any assignment (here stage 1 rejecting a token-less
response) leaves every `ChainState` field exactly as it was — no field of
the failing stage or of any downstream stage is cleared. -/
theorem c2_amended_no_clearing (env : AuthEnv) (s : ChainState) (j : Json)
    (hresp : env.accountResp = .ok j)
    (hfull : fullReauthNeeded env.now s = true)
    (hbad : (!pyTruthy j || !hasKey j "token") = true) :
    ensure_authenticated env s
      = ⟨s, some (.tclAuthError "Account authentication failed: token not in response."),
         [Stage.accountAuth]⟩ := by
  have hacct : do_account_auth env.accountResp s
      = (s, some (.tclAuthError "Account authentication failed: token not in response.")) := by
    rw [hresp]
    simp [do_account_auth, hbad]
  unfold ensure_authenticated stage12
  rw [hfull, hacct]
  rfl

/-- C2, witness for the amended theorem at the concrete inputs of the
counterexample. -/
theorem c2_amended_no_clearing_witness :
    ensure_authenticated envC2 sC2
      = ⟨sC2, some (.tclAuthError "Account authentication failed: token not in response."),
         [Stage.accountAuth]⟩ :=
  c2_amended_no_clearing envC2 sC2 (.obj [("code", .num 1)]) rfl rfl rfl

/-- C3, counterexample: `_refresh_tokens` receives a well-formed response
whose cognito token payload cannot be decoded; it raises `TclApiError`, yet
the stored federation token has changed from `oldCog` to the freshly
received `cog-token` — an `ApiError` that mutates `ChainState`. -/
theorem c3_counterexample :
    (refresh_tokens envC3 sC3).2
      = some (.tclApiError "Could not parse Cognito token expiry.")
    ∧ sC3.cognito_token = some (.str "oldCog")
    ∧ (refresh_tokens envC3 sC3).1.cognito_token = some (.str "cog-token")
    ∧ (refresh_tokens envC3 sC3).1.cognito_token ≠ sC3.cognito_token :=
  ⟨rfl, rfl, rfl, fun h => absurd (Json.str.inj (Option.some.inj h)) (by decide)⟩

/-- C3, amended: an `ApiError` raised by the transport leaves the chain
untouched, but the `ApiError` raised when the freshly received federation
token's payload cannot be decoded occurs after the api token and federation
token were assigned: exactly those two fields take the new response values
(`refreshApply`), every other field — including the stored federation
expiry — keeps its previous value. -/
theorem c3_amended_decode_mutation (env : AuthEnv) (s : ChainState) (rj d : Json)
    (hpre1 : optTruthy s.api_username = true)
    (hpre2 : optTruthy s.access_token = true)
    (hresp : env.refreshResp = .ok rj)
    (htr : pyTruthy rj = true)
    (hd : jsonGet rj "data" = some d)
    (hck : hasKey d "cognitoToken" = true)
    (hsk : hasKey d "saasToken" = true)
    (hdec : env.decodeExp (jsonGetD d "cognitoToken" .null) = none) :
    refresh_tokens env s
      = (refreshApply d s, some (.tclApiError "Could not parse Cognito token expiry.")) := by
  have hgd : jsonGetD rj "data" Json.null = d := by simp [jsonGetD, hd]
  have hden : hasKey rj "data" = true := by simp [hasKey, hd]
  unfold refresh_tokens
  rw [hpre1, hpre2, hresp]
  simp [htr, hden, hgd, hck, hsk, hdec]

/-- C3, witness for the amended theorem at the concrete inputs of the
counterexample. -/
theorem c3_amended_decode_mutation_witness :
    refresh_tokens envC3 sC3
      = (refreshApply (.obj [("cognitoToken", .str "cog-token"),
                             ("saasToken", .str "saas-token")]) sC3,
         some (.tclApiError "Could not parse Cognito token expiry.")) :=
  c3_amended_decode_mutation envC3 sC3 okRefreshResp
    (.obj [("cognitoToken", .str "cog-token"), ("saasToken", .str "saas-token")])
    rfl rfl rfl rfl rfl rfl rfl rfl

/-- C4, counterexample: on the fully authenticated state `sAuth`, a 404
response makes `get_device_shadow` raise `TclApiError` rather than return an
empty document, and an empty body also raises `TclApiError` (line 95 of
api.py reads `response.status`, which does not exist on the synchronous
transport's response, and the resulting `AttributeError` is re-raised as
`TclApiError` by the catch-all clause). -/
theorem c4_counterexample :
    get_device_shadow envOk (.httpError 404) sAuth
      = .error (.tclApiError "API request failed: 404")
    ∧ get_device_shadow envOk (.ok 200 .empty) sAuth
      = .error (.tclApiError "Unexpected API error") :=
  ⟨rfl, rfl⟩

/-- C4, amended: on any fully authenticated state, `get_device_shadow`
returns the empty document only for a falsy decoded JSON body (such as the
literal empty object); an HTTP 404 raises `ApiError`, and an entirely empty
body raises `ApiError` as well. -/
theorem c4_amended_shadow (env : AuthEnv) (s : ChainState)
    (h : fullyAuthenticated env.now s = true) :
    get_device_shadow env (.ok 200 (.valid (.obj []))) s = .ok (.obj [])
    ∧ get_device_shadow env (.httpError 404) s
      = .error (.tclApiError "API request failed: 404")
    ∧ get_device_shadow env (.ok 200 .empty) s
      = .error (.tclApiError "Unexpected API error") := by
  have h' := h
  simp only [fullyAuthenticated, Bool.and_eq_true, Bool.not_eq_true'] at h'
  obtain ⟨⟨⟨⟨⟨⟨⟨⟨⟨h1, h2⟩, h3⟩, h4⟩, h5⟩, h6⟩, h7⟩, h8⟩, h9⟩, h10⟩ := h'
  unfold get_device_shadow
  rw [ensure_authenticated_noop env s h]
  simp only [h7, h8, h9]
  exact ⟨rfl, rfl, rfl⟩

/-- C4, witness for the amended theorem on the concrete state `sAuth`. -/
theorem c4_amended_shadow_witness :
    get_device_shadow envOk (.ok 200 (.valid (.obj []))) sAuth = .ok (.obj [])
    ∧ get_device_shadow envOk (.httpError 404) sAuth
      = .error (.tclApiError "API request failed: 404")
    ∧ get_device_shadow envOk (.ok 200 .empty) sAuth
      = .error (.tclApiError "Unexpected API error") :=
  c4_amended_shadow envOk sAuth rfl

/-- C5: evaluation of `_request` at the failing inputs.  On the aiohttp
(non-AWS-IoT) path an HTTP failure is classified correctly (`AuthError`
exactly for 401/403), but a connection failure, a timeout or a JSON decode
failure escapes as `UnboundLocalError` — not as `ApiError` — because the
`except requests.exceptions.HTTPError` clause evaluates the unbound local
name `requests`.  On the synchronous path the classification works. -/
theorem c5_async_failures_unbound :
    request false .connectionError = .error (.unboundLocalError "requests")
    ∧ request false .timeout = .error (.unboundLocalError "requests")
    ∧ request false (.ok 200 (.invalid "not json")) = .error (.unboundLocalError "requests")
    ∧ request false (.httpError 401) = .error (.tclAuthError "Authentication failed: 401")
    ∧ request false (.httpError 403) = .error (.tclAuthError "Authentication failed: 403")
    ∧ request false (.httpError 500) = .error (.tclApiError "API request failed: 500")
    ∧ request true .connectionError = .error (.tclApiError "Unexpected API error")
    ∧ request true (.httpError 401) = .error (.tclAuthError "Authentication failed: 401")
    ∧ request true (.httpError 404) = .error (.tclApiError "API request failed: 404") :=
  ⟨rfl, rfl, rfl, rfl, rfl, rfl, rfl, rfl, rfl⟩

/-- C6: whenever `_get_aws_credentials` accepts a response, the stored
signing-credential expiry is the response's `Expiration` value divided by
1000, read as seconds since the epoch. -/
theorem c6_expiration_division (env : AuthEnv) (s : ChainState)
    (q : ℚ) (ak sk st : Json)
    (hck : optTruthy s.cognito_token = true)
    (hexp : expiryPassed env.now s.cognito_token_expiry = false)
    (hresp : env.awsResp = .ok (.obj [("Credentials",
        .obj [("AccessKeyId", ak), ("SecretKey", sk),
              ("SessionToken", st), ("Expiration", .num q)])])) :
    (get_aws_credentials env s).1.aws_credentials_expiry = some (q / 1000)
    ∧ (get_aws_credentials env s).2 = none := by
  unfold get_aws_credentials
  rw [hck, hexp, hresp]
  exact ⟨rfl, rfl⟩

/-- C6, witness: `Expiration = 1700000000000` milliseconds yields the expiry
instant at epoch second 1700000000. -/
theorem c6_expiration_division_witness :
    (get_aws_credentials envOk sAuth).1.aws_credentials_expiry = some 1700000000
    ∧ (get_aws_credentials envOk sAuth).2 = none := by
  have h := c6_expiration_division envOk sAuth 1700000000000
    (.str "AKIA") (.str "sec") (.str "sess") rfl rfl rfl
  refine ⟨?_, h.2⟩
  rw [h.1]
  norm_num

/-- C7: on any fully authenticated state, `get_devices` maps a response
object carrying `data: []` to itself: the empty device sequence is returned
and no error is raised. -/
theorem c7_empty_device_list (env : AuthEnv) (s : ChainState)
    (h : fullyAuthenticated env.now s = true) :
    get_devices env (.ok (.obj [("data", .arr [])])) s
      = .ok (.obj [("data", .arr [])]) := by
  have h' := h
  simp only [fullyAuthenticated, Bool.and_eq_true, Bool.not_eq_true'] at h'
  obtain ⟨⟨⟨⟨⟨⟨⟨⟨⟨h1, h2⟩, h3⟩, h4⟩, h5⟩, h6⟩, h7⟩, h8⟩, h9⟩, h10⟩ := h'
  unfold get_devices
  rw [ensure_authenticated_noop env s h]
  simp [h5, h3, hasKey, jsonGet, pyTruthy]

/-- C7, witness on the concrete state `sAuth`. -/
theorem c7_empty_device_list_witness :
    get_devices envOk (.ok (.obj [("data", .arr [])])) sAuth
      = .ok (.obj [("data", .arr [])]) :=
  c7_empty_device_list envOk sAuth rfl

/-- C8, counterexample: two concurrent `ensure_authenticated` calls over the
shared state `sC8`, in which only the AWS-credential stage is expired,
interleave so that each runs its expiry check before either response is
applied; the run completes and the stage-3 network call is executed twice,
not once. -/
theorem c8_counterexample :
    (runSchedule envOk sysC8 [0, 1, 0, 1]).sends.count Stage.awsCredentials = 2
    ∧ (runSchedule envOk sysC8 [0, 1, 0, 1]).sends
      = [Stage.awsCredentials, Stage.awsCredentials] :=
  ⟨rfl, rfl⟩

/-- C8, amended: the code takes no lock, so concurrent calls that both
observe the same single expired stage before either resumes each dispatch
that stage's network call: with two callers, two stage-3 network calls are
executed. -/
theorem c8_amended_no_lock (env : AuthEnv) (s : ChainState)
    (h1 : optTruthy s.access_token = true)
    (h2 : optTruthy s.api_username = true)
    (h3 : optTruthy s.country = true)
    (h4 : optTruthy s.cognito_token = true)
    (h5 : optTruthy s.saas_token = true)
    (h6 : expiryPassed env.now s.cognito_token_expiry = false)
    (h7 : optTruthy s.aws_access_key_id = true)
    (h8 : optTruthy s.aws_secret_key = true)
    (h9 : optTruthy s.aws_session_token = true)
    (h10 : expiryPassed env.now s.aws_credentials_expiry = true) :
    (runSchedule env ⟨s, [⟨.start, false⟩, ⟨.start, false⟩], []⟩ [0, 1]).sends
      = [Stage.awsCredentials, Stage.awsCredentials] := by
  have hfull : fullReauthNeeded env.now s = false := by
    simp [fullReauthNeeded, h1, h2, h3, h4, h5, h6]
  have hphase : awsPhase env s false = (.waitAws, [Stage.awsCredentials]) := by
    simp [awsPhase, awsCredsNeeded, h4, h6, h7, h8, h9, h10]
  simp [runSchedule, sysStep, taskStep, hfull, hphase]

/-- C8, witness for the amended theorem at the concrete state `sC8`. -/
theorem c8_amended_no_lock_witness :
    (runSchedule envOk ⟨sC8, [⟨.start, false⟩, ⟨.start, false⟩], []⟩ [0, 1]).sends
      = [Stage.awsCredentials, Stage.awsCredentials] :=
  c8_amended_no_lock envOk sC8 rfl rfl rfl rfl rfl rfl rfl rfl rfl rfl

/-- C9: `set_power` with `power_on = True` builds exactly the desired-state
patch `powerSwitch: 1`; with `power_on = False` exactly
`powerSwitch: 0, verticalDirection: 8, horizontalDirection: 8`; and
`control_device` places the patch under `state.desired` of the posted
body. -/
theorem c9_set_power_patches (timestamp_ms : ℤ) :
    set_power_command true = [(API_PARAM_POWER_SWITCH, Json.num 1)]
    ∧ set_power_command false
      = [(API_PARAM_POWER_SWITCH, Json.num 0), (API_PARAM_VERTICAL_DIRECTION, Json.num 8),
         (API_PARAM_HORIZONTAL_DIRECTION, Json.num 8)]
    ∧ control_device_body (set_power_command true) timestamp_ms
      = .obj [("state", .obj [("desired", .obj [(API_PARAM_POWER_SWITCH, Json.num 1)])]),
              ("clientToken", .str ("mobile_" ++ toString timestamp_ms))]
    ∧ control_device_body (set_power_command false) timestamp_ms
      = .obj [("state", .obj [("desired", .obj (set_power_command false))]),
              ("clientToken", .str ("mobile_" ++ toString timestamp_ms))] :=
  ⟨rfl, rfl, rfl, rfl⟩

/-- C10: `async_set_temperature` sends the `targetTemperature` command
exactly when the requested temperature lies in `[16, 31]`; outside that
range it sends nothing and leaves the stored target unchanged (whatever the
api outcome `apiOk` would have been). -/
theorem c10_temperature_range (apiOk : Bool) (t : ℚ) (target : Option ℚ) :
    async_set_temperature apiOk (some t) target
      = if attr_min_temp ≤ t ∧ t ≤ attr_max_temp then
          (some (.obj [("targetTemperature", .num t)]), if apiOk then some t else target)
        else (none, target) := by
  by_cases hlo : attr_min_temp ≤ t <;> by_cases hhi : t ≤ attr_max_temp <;>
    cases apiOk <;> simp [async_set_temperature, hlo, hhi]

end TclAc
